import Mathlib

/-!
Shallow embedding of `src/main.py` (Neurométéo dashboard script) and proofs
about its signal-processing pipeline: min-max normalization, spike
thresholding, LIF neuron simulation, moving-average forecast, next-hour
summary value, and the e-mail alert block.  Real-valued Python arithmetic is
modelled over `ℚ`; Python exceptions are modelled with `Except String`.
-/

namespace NeuroMeteo

/-- Python `min` over a non-empty list (`min(wind)` in line 34 of
`src/main.py`); the empty case never occurs there because the surrounding
`try` block is modelled to fail first (Python `min([])` raises
`ValueError`). -/
def pyMin : List ℚ → ℚ
  | [] => 0
  | x :: xs => xs.foldl min x

/-- Python `max` over a non-empty list (`max(wind)` in lines 34, 75, 99 and
106 of `src/main.py`). -/
def pyMax : List ℚ → ℚ
  | [] => 0
  | x :: xs => xs.foldl max x

/-- Line 34: `wind_norm = [(w - min(wind)) / (max(wind) - min(wind)) for w in wind]`. -/
def windNorm (wind : List ℚ) : List ℚ :=
  wind.map (fun w => (w - pyMin wind) / (pyMax wind - pyMin wind))

/-- Line 36: `spikes = [1 if w > threshold else 0 for w in wind_norm]`. -/
def spikes (norm : List ℚ) (threshold : ℚ) : List ℕ :=
  norm.map (fun w => if threshold < w then 1 else 0)

theorem foldl_min_le_init (xs : List ℚ) (a : ℚ) : xs.foldl min a ≤ a := by
  induction xs generalizing a with
  | nil => simp
  | cons x xs ih =>
    calc (x :: xs).foldl min a = xs.foldl min (min a x) := rfl
    _ ≤ min a x := ih (min a x)
    _ ≤ a := min_le_left a x

theorem foldl_min_le_mem (xs : List ℚ) (a b : ℚ) (hb : b ∈ xs) :
    xs.foldl min a ≤ b := by
  induction xs generalizing a with
  | nil => cases hb
  | cons x xs ih =>
    rcases List.mem_cons.mp hb with h | h
    · subst h
      calc (b :: xs).foldl min a = xs.foldl min (min a b) := rfl
      _ ≤ min a b := foldl_min_le_init xs (min a b)
      _ ≤ b := min_le_right a b
    · exact ih (min a x) h

theorem foldl_min_mem (xs : List ℚ) (a : ℚ) :
    xs.foldl min a = a ∨ xs.foldl min a ∈ xs := by
  induction xs generalizing a with
  | nil => left; rfl
  | cons x xs ih =>
    rcases ih (min a x) with h | h
    · rcases min_cases a x with ⟨hmin, _⟩ | ⟨hmin, _⟩
      · left; simpa [List.foldl, hmin] using h
      · right
        have hx : (x :: xs).foldl min a = x := by simpa [List.foldl, hmin] using h
        rw [hx]
        exact List.mem_cons_self x xs
    · right; right; exact h

theorem init_le_foldl_max (xs : List ℚ) (a : ℚ) : a ≤ xs.foldl max a := by
  induction xs generalizing a with
  | nil => simp
  | cons x xs ih =>
    calc a ≤ max a x := le_max_left a x
    _ ≤ xs.foldl max (max a x) := ih (max a x)
    _ = (x :: xs).foldl max a := rfl

theorem mem_le_foldl_max (xs : List ℚ) (a b : ℚ) (hb : b ∈ xs) :
    b ≤ xs.foldl max a := by
  induction xs generalizing a with
  | nil => cases hb
  | cons x xs ih =>
    rcases List.mem_cons.mp hb with h | h
    · subst h
      calc b ≤ max a b := le_max_right a b
      _ ≤ xs.foldl max (max a b) := init_le_foldl_max xs (max a b)
      _ = (b :: xs).foldl max a := rfl
    · exact ih (max a x) h

theorem foldl_max_mem (xs : List ℚ) (a : ℚ) :
    xs.foldl max a = a ∨ xs.foldl max a ∈ xs := by
  induction xs generalizing a with
  | nil => left; rfl
  | cons x xs ih =>
    rcases ih (max a x) with h | h
    · rcases max_cases a x with ⟨hmax, _⟩ | ⟨hmax, _⟩
      · left; simpa [List.foldl, hmax] using h
      · right
        have hx : (x :: xs).foldl max a = x := by simpa [List.foldl, hmax] using h
        rw [hx]
        exact List.mem_cons_self x xs
    · right; right; exact h

theorem pyMin_le_mem (l : List ℚ) (w : ℚ) (hw : w ∈ l) : pyMin l ≤ w := by

  cases l with
  | nil => cases hw
  | cons x xs =>
    rcases List.mem_cons.mp hw with h | h
    · subst h; exact foldl_min_le_init xs w
    · exact foldl_min_le_mem xs x w h

theorem mem_le_pyMax (l : List ℚ) (w : ℚ) (hw : w ∈ l) : w ≤ pyMax l := by
  cases l with
  | nil => cases hw
  | cons x xs =>
    rcases List.mem_cons.mp hw with h | h
    · subst h; exact init_le_foldl_max xs w
    · exact mem_le_foldl_max xs x w h

theorem pyMin_mem (l : List ℚ) (hl : l ≠ []) : pyMin l ∈ l := by
  cases l with
  | nil => exact absurd rfl hl
  | cons x xs =>
    rcases foldl_min_mem xs x with h | h
    · rw [pyMin, h]; exact List.mem_cons_self x xs
    · exact List.mem_cons_of_mem x h

theorem pyMax_mem (l : List ℚ) (hl : l ≠ []) : pyMax l ∈ l := by
  cases l with
  | nil => exact absurd rfl hl
  | cons x xs =>
    rcases foldl_max_mem xs x with h | h
    · rw [pyMax, h]; exact List.mem_cons_self x xs
    · exact List.mem_cons_of_mem x h

theorem pyMin_le_pyMax (l : List ℚ) (hl : l ≠ []) : pyMin l ≤ pyMax l :=
  le_trans (pyMin_le_mem l (pyMax l) (pyMax_mem l hl))
    (le_refl (pyMax l))

/-- Lines 30-39 of `src/main.py`: the `try` block around data acquisition.
Network and JSON decoding are abstracted into the `samples` argument (the
list the Forecast Source returned); the block takes the first 24 entries
(`wind = data[...][:24]`, line 33), computes `wind_norm` and `spikes`.
Python exceptions the block itself can raise from these lines are modelled
by the `Except.error` branches: `min([])` / `max([])` raise `ValueError` on
an empty slice, and the normalization divides by `max(wind) - min(wind)`,
raising `ZeroDivisionError` when the two coincide; the `except` handler
(lines 37-39) catches them, shows the message and stops the script. -/
def tryBlock (samples : List ℚ) (threshold : ℚ) :
    Except String (List ℚ × List ℚ × List ℕ) :=
  let wind := samples.take 24
  if wind = [] then
    Except.error ("ValueError: min() arg is an empty sequence")
  else if pyMax wind = pyMin wind then
    Except.error ("ZeroDivisionError: float division by zero")
  else
    Except.ok (wind, windNorm wind, spikes (windNorm wind) threshold)

/-- The `LIFState(z, v, i)` triple of line 42 (spike output, membrane
potential, synaptic current), initialised to zeros. -/
structure LIFState where
  z : ℚ
  v : ℚ
  i : ℚ
  deriving DecidableEq, Repr

/-- Modelled from the spec: `lif_step` is imported from the external
`norse` library (line 12) and is not part of this repository, so its body
is reconstructed from the specification of the Neuron Simulator: one
discrete-time integration step in which the synaptic current and the
membrane potential leak exponentially, the current accumulates the binary
input through the identity input/recurrent weights (`w_in = w_rec = eye(1)`,
lines 43-44), and a spike is emitted with reset when the potential crosses
the internal firing threshold baked into the neuron parameters.  The
`alpha` parameter (100.0 at line 48) shapes only the surrogate gradient of
the spike nonlinearity, not the forward value computed here. -/
def lif_step (inp : ℚ) (s : LIFState) (alpha : ℚ) : ℚ × LIFState :=
  let _ := alpha
  let iDecayed := s.i - (1 / 5) * s.i
  let vDecayed := s.v + (1 / 10) * (0 - s.v + s.i)
  let z : ℚ := if 1 < vDecayed then 1 else 0
  let vNew := (1 - z) * vDecayed + z * 0
  let iNew := iDecayed + inp + s.z
  (z, { z := z, v := vNew, i := iNew })

/-- Lines 45-49: the simulation loop, threading the `LIFState` through
`lif_step` over the spike train in index order and collecting `z.item()`. -/
def lifRun (spks : List ℕ) (s : LIFState) (alpha : ℚ) : List ℚ :=
  match spks with
  | [] => []
  | sp :: rest =>
    let step := lif_step (sp : ℚ) s alpha
    step.1 :: lifRun rest step.2 alpha

/-- Lines 42-49: `outputs`, the trace produced from the all-zero initial
state. -/
def outputs (spks : List ℕ) (alpha : ℚ) : List ℚ :=
  lifRun spks { z := 0, v := 0, i := 0 } alpha

/-- Lines 53-54: the sliding-window mean forecast.
`preds = [sum(wind[i:i+pred_window]) / pred_window for i in range(len(wind)-pred_window+1)]`
followed by `preds += [None] * (24 - len(preds))`.  The comprehension range
length `len(wind) - pred_window + 1` is computed over `ℤ` because Python
`range` of a negative bound is empty, and `[None] * k` is empty for
negative `k`. -/
def preds (wind : List ℚ) (window : ℕ) : List (Option ℚ) :=
  let nValid := ((wind.length : ℤ) - (window : ℤ) + 1).toNat
  ((List.range nValid).map
      (fun i => some (((wind.drop i).take window).sum / (window : ℚ))))
    ++ List.replicate (24 - nValid) none

/-- Line 77: `val = preds[len(spikes)-1] if preds and len(preds) >= len(spikes) else None`.
The `spikes` list is non-empty whenever this line runs (the `try` block
aborted otherwise), so Python never takes a negative index here. -/
def nextHourVal (p : List (Option ℚ)) (spk : List ℕ) : Option ℚ :=
  if p ≠ [] ∧ spk.length ≤ p.length then p.getD (spk.length - 1) none
  else none

/-- What the alert block (lines 97-117) left behind for the user: the
guard at line 99 was false, or the guard held but the send button was not
pressed, or a confirmed attempt ended in the `except` branch with a
reported message (`st.error`, line 117), or in `st.success` (line 115). -/
inductive AlertOutcome where
  | notArmedOrCalm : AlertOutcome
  | notConfirmed : AlertOutcome
  | failed : String → AlertOutcome
  | sent : AlertOutcome
  deriving DecidableEq, Repr

/-- Line 106 evaluates `MIMEText(...)`, but the module never imports or
defines `MIMEText` (imports are lines 6-12: streamlit, requests, torch,
matplotlib, pandas, StringIO, norse), so Python raises `NameError` there;
the rest of the message construction and the `smtplib` transport (lines
107-113, `smtplib` equally undefined) are never reached. -/
def mimeTextLookup : Except String String :=
  Except.error ("NameError: name MIMEText is not defined")

/-- Body of the `try` at lines 100-115: assignments, then
`if st.button(...)` guarding the send; returns whether `st.success` ran. -/
def alertTryBody (confirm : Bool) : Except String Bool :=
  if confirm then do
    let _msg ← mimeTextLookup
    pure true
  else
    pure false

/-- Lines 98-117: the checkbox `alerte_active`, the guard
`if alerte_active and max(wind) > 30:` and the `try`/`except` around the
send attempt, whose `except` branch reports the caught message. -/
def alertBlock (wind : List ℚ) (armed confirm : Bool) : AlertOutcome :=
  if armed && decide ((30 : ℚ) < pyMax wind) then
    match alertTryBody confirm with
    | Except.ok true => AlertOutcome.sent
    | Except.ok false => AlertOutcome.notConfirmed
    | Except.error e => AlertOutcome.failed e
  else
    AlertOutcome.notArmedOrCalm

/-- Everything one interaction cycle of the script computes and exposes
(chart series, summary value, CSV columns, alert result). -/
structure RenderModel where
  wind : List ℚ
  windNormS : List ℚ
  spikeTrain : List ℕ
  outTrace : List ℚ
  forecast : List (Option ℚ)
  nextHour : Option ℚ
  alert : AlertOutcome
  deriving Repr

/-- The whole script, top to bottom, for one interaction: the `try` block
(lines 30-39), then the LIF simulation (42-49), forecast (52-54), summary
value (77), and alert block (98-117).  `Except.error` is the `st.stop()`
path of lines 37-39; every later component is pure and unconditional. -/
def fullCycle (samples : List ℚ) (threshold : ℚ) (window : ℕ) (alpha : ℚ)
    (armed confirm : Bool) : Except String RenderModel :=
  match tryBlock samples threshold with
  | Except.error e => Except.error e
  | Except.ok (wind, norm, spks) =>
    Except.ok
      { wind := wind
        windNormS := norm
        spikeTrain := spks
        outTrace := outputs spks alpha
        forecast := preds wind window
        nextHour := nextHourVal (preds wind window) spks
        alert := alertBlock wind armed confirm }

theorem windNorm_length (wind : List ℚ) : (windNorm wind).length = wind.length :=
  List.length_map wind _

theorem spikes_length (norm : List ℚ) (T : ℚ) :
    (spikes norm T).length = norm.length :=
  List.length_map norm _

theorem windNorm_getD (wind : List ℚ) (i : ℕ) (hi : i < wind.length) :
    (windNorm wind).getD i 0 =
      (wind.getD i 0 - pyMin wind) / (pyMax wind - pyMin wind) := by
  simp [windNorm, List.getD_eq_getElem?_getD, List.getElem?_map,
    List.getElem?_eq_getElem hi]

theorem windNorm_mem_form (wind : List ℚ) (x : ℚ) (hx : x ∈ windNorm wind) :
    ∃ w ∈ wind, x = (w - pyMin wind) / (pyMax wind - pyMin wind) := by
  rcases List.mem_map.mp hx with ⟨w, hw, hwx⟩
  exact ⟨w, hw, hwx.symm⟩

theorem pyMin_lt_pyMax (wind : List ℚ) (hne : wind ≠ [])
    (hd : pyMax wind ≠ pyMin wind) : pyMin wind < pyMax wind :=
  lt_of_le_of_ne (pyMin_le_pyMax wind hne) (Ne.symm hd)

end NeuroMeteo

namespace NeuroMeteo

/-- C1: for every 24-sample WindSeries with distinct max and min, the
Signal Normalizer applies the min-max formula pointwise, every element of
the result lies in [0,1], samples equal to the series maximum map to 1 and
samples equal to the series minimum map to 0. -/
theorem C1_normalizer (wind : List ℚ) (h24 : wind.length = 24)
    (hd : pyMax wind ≠ pyMin wind) :
    (∀ i, i < 24 → (windNorm wind).getD i 0 =
        (wind.getD i 0 - pyMin wind) / (pyMax wind - pyMin wind)) ∧
    (∀ x ∈ windNorm wind, 0 ≤ x ∧ x ≤ 1) ∧
    (∀ i, i < 24 → wind.getD i 0 = pyMax wind →
        (windNorm wind).getD i 0 = 1) ∧
    (∀ i, i < 24 → wind.getD i 0 = pyMin wind →
        (windNorm wind).getD i 0 = 0) := by
  have hne : wind ≠ [] := by
    intro h
    rw [h] at h24
    exact absurd h24 (by decide)
  have hlt : pyMin wind < pyMax wind := pyMin_lt_pyMax wind hne hd
  have hpos : 0 < pyMax wind - pyMin wind := sub_pos.mpr hlt
  have hform : ∀ i, i < 24 → (windNorm wind).getD i 0 =
      (wind.getD i 0 - pyMin wind) / (pyMax wind - pyMin wind) := by
    intro i hi
    exact windNorm_getD wind i (by omega)
  refine ⟨hform, ?_, ?_, ?_⟩
  · intro x hx
    rcases windNorm_mem_form wind x hx with ⟨w, hw, hwx⟩
    subst hwx
    constructor
    · exact div_nonneg (sub_nonneg.mpr (pyMin_le_mem wind w hw)) hpos.le
    · exact (div_le_one hpos).mpr (by
        have := mem_le_pyMax wind w hw
        linarith)
  · intro i hi hmax
    rw [hform i hi, hmax]
    exact div_self (sub_ne_zero.mpr (ne_of_gt hlt))
  · intro i hi hmin
    rw [hform i hi, hmin, sub_self]
    exact zero_div _

/-- Witness for C1 at the WindSeries 10, 20, ..., 240. -/
theorem C1_normalizer_witness :
    (∀ x ∈ windNorm [10, 20, 30, 40, 50, 60, 70, 80, 90, 100, 110, 120, 130,
        140, 150, 160, 170, 180, 190, 200, 210, 220, 230, 240],
        0 ≤ x ∧ x ≤ 1) ∧
    (windNorm [10, 20, 30, 40, 50, 60, 70, 80, 90, 100, 110, 120, 130, 140,
        150, 160, 170, 180, 190, 200, 210, 220, 230, 240]).getD 23 0 = 1 ∧
    (windNorm [10, 20, 30, 40, 50, 60, 70, 80, 90, 100, 110, 120, 130, 140,
        150, 160, 170, 180, 190, 200, 210, 220, 230, 240]).getD 0 0 = 0 := by
  have h := C1_normalizer [10, 20, 30, 40, 50, 60, 70, 80, 90, 100, 110, 120,
      130, 140, 150, 160, 170, 180, 190, 200, 210, 220, 230, 240]
    (by rfl) (by norm_num [pyMax, pyMin])
  exact ⟨h.2.1, h.2.2.1 23 (by norm_num) (by norm_num [pyMax]),
    h.2.2.2 0 (by norm_num) (by norm_num [pyMin])⟩

/-- C2: the Spike Encoder emits 1 exactly when the normalized sample
strictly exceeds the threshold, and a sample exactly equal to the threshold
yields 0. -/
theorem C2_spikeEncoder (norm : List ℚ) (T : ℚ) (hT1 : 1 / 10 ≤ T)
    (hT2 : T ≤ 1) (i : ℕ) (hi : i < norm.length) :
    ((spikes norm T).getD i 0 = 1 ↔ T < norm.getD i 0) ∧
    (norm.getD i 0 = T → (spikes norm T).getD i 0 = 0) := by
  have hsp : (spikes norm T).getD i 0 =
      if T < norm.getD i 0 then 1 else 0 := by
    simp [spikes, List.getD_eq_getElem?_getD, List.getElem?_map,
      List.getElem?_eq_getElem hi]
  constructor
  · rw [hsp]
    by_cases h : T < norm.getD i 0
    · simp [h]
    · simp [h]
  · intro he
    rw [hsp, he]
    simp

/-- Witness for C2 at the series 0, 3/10, 1 with threshold 3/10. -/
theorem C2_spikeEncoder_witness :
    ((spikes [0, 3 / 10, 1] (3 / 10)).getD 2 0 = 1 ↔
        (3 : ℚ) / 10 < ([0, 3 / 10, 1] : List ℚ).getD 2 0) ∧
    (([0, 3 / 10, 1] : List ℚ).getD 1 0 = 3 / 10 →
        (spikes [0, 3 / 10, 1] (3 / 10)).getD 1 0 = 0) :=
  ⟨(C2_spikeEncoder [0, 3 / 10, 1] (3 / 10) (by norm_num) (by norm_num) 2
      (by decide)).1,
   (C2_spikeEncoder [0, 3 / 10, 1] (3 / 10) (by norm_num) (by norm_num) 1
      (by decide)).2⟩

theorem getD_replicate_none (k j : ℕ) :
    (List.replicate k (none : Option ℚ)).getD j none = none := by
  rw [List.getD_eq_getElem?_getD, List.getElem?_replicate]
  by_cases h : j < k <;> simp [h]

theorem preds_toNat (wind : List ℚ) (window : ℕ) (h24 : wind.length = 24)
    (h1 : 1 ≤ window) (h5 : window ≤ 5) :
    ((wind.length : ℤ) - (window : ℤ) + 1).toNat = 24 - window + 1 := by
  rw [h24]
  omega

theorem preds_getD_valid (wind : List ℚ) (window : ℕ) (h24 : wind.length = 24)
    (h1 : 1 ≤ window) (h5 : window ≤ 5) (i : ℕ) (hi : i ≤ 24 - window) :
    (preds wind window).getD i none =
      some (((wind.drop i).take window).sum / (window : ℚ)) := by
  rw [preds, preds_toNat wind window h24 h1 h5]
  rw [List.getD_append _ _ _ _ (by simp; omega)]
  rw [List.getD_eq_getElem?_getD, List.getElem?_map,
    List.getElem?_range (by omega : i < 24 - window + 1)]
  rfl

theorem preds_getD_invalid (wind : List ℚ) (window : ℕ)
    (h24 : wind.length = 24) (h1 : 1 ≤ window) (h5 : window ≤ 5)
    (i : ℕ) (hi : 24 - window < i) :
    (preds wind window).getD i none = none := by
  rw [preds, preds_toNat wind window h24 h1 h5]
  rw [List.getD_append_right _ _ _ _ (by simp; omega)]
  exact getD_replicate_none _ _

theorem preds_length (wind : List ℚ) (window : ℕ) (h24 : wind.length = 24)
    (h1 : 1 ≤ window) (h5 : window ≤ 5) : (preds wind window).length = 24 := by
  rw [preds, preds_toNat wind window h24 h1 h5]
  simp
  omega

/-- C3: for a 24-sample WindSeries and window in [1,5], the Forecaster
produces a 24-entry list whose first `24 - window + 1` entries are the
sliding-window means (each window really containing `window` samples), all
later entries are the `None` placeholder, the number of valid entries is
exactly `24 - window + 1`, and for window 1 each valid entry equals the
corresponding raw sample. -/
theorem C3_forecaster (wind : List ℚ) (window : ℕ) (h24 : wind.length = 24)
    (h1 : 1 ≤ window) (h5 : window ≤ 5) :
    ((preds wind window).length = 24) ∧
    ((preds wind window).countP (fun o => o.isSome) = 24 - window + 1) ∧
    (∀ i, i ≤ 24 - window →
        ((wind.drop i).take window).length = window ∧
        (preds wind window).getD i none =
          some (((wind.drop i).take window).sum / (window : ℚ))) ∧
    (∀ i, 24 - window < i → (preds wind window).getD i none = none) ∧
    (window = 1 → ∀ i, i < 24 →
        (preds wind window).getD i none = some (wind.getD i 0)) := by
  refine ⟨preds_length wind window h24 h1 h5, ?_, ?_, ?_, ?_⟩
  · rw [preds, preds_toNat wind window h24 h1 h5]
    rw [List.countP_append]
    have hleft : ((List.range (24 - window + 1)).map
        (fun i => some (((wind.drop i).take window).sum / (window : ℚ)))).countP
          (fun o => o.isSome) = 24 - window + 1 := by
      rw [List.countP_map]
      have hall : ∀ a ∈ List.range (24 - window + 1),
          ((fun o => Option.isSome o) ∘
            (fun i => some (((wind.drop i).take window).sum / (window : ℚ)))) a
            = true := by
        intro a _
        rfl
      rw [List.countP_eq_length.mpr hall, List.length_range]
    have hright : (List.replicate (24 - (24 - window + 1))
        (none : Option ℚ)).countP (fun o => o.isSome) = 0 := by
      rw [List.countP_eq_zero]
      intro a ha
      rw [List.eq_of_mem_replicate ha]
      simp
    rw [hleft, hright]
  · intro i hi
    constructor
    · rw [List.length_take, List.length_drop, h24]
      omega
    · exact preds_getD_valid wind window h24 h1 h5 i hi
  · exact preds_getD_invalid wind window h24 h1 h5
  · intro hw i hi
    subst hw
    have hiv : i ≤ 24 - 1 := by omega
    rw [preds_getD_valid wind 1 h24 h1 h5 i hiv]
    have hlt : i < wind.length := by omega
    have hsum : (List.take 1 (List.drop i wind)).sum = wind.getD i 0 := by
      rw [List.take_one, List.head?_drop, List.getElem?_eq_getElem hlt]
      simp [List.getD_eq_getElem?_getD, List.getElem?_eq_getElem hlt]
    rw [hsum]
    norm_num

/-- Witness for C3 at the WindSeries 10, 20, ..., 240 with window 3:
24 entries, 22 of them valid, the first is the mean 20 of (10,20,30), and
the last entry is the placeholder. -/
theorem C3_forecaster_witness :
    (preds [10, 20, 30, 40, 50, 60, 70, 80, 90, 100, 110, 120, 130, 140,
        150, 160, 170, 180, 190, 200, 210, 220, 230, 240] 3).length = 24 ∧
    (preds [10, 20, 30, 40, 50, 60, 70, 80, 90, 100, 110, 120, 130, 140,
        150, 160, 170, 180, 190, 200, 210, 220, 230, 240] 3).countP
        (fun o => o.isSome) = 22 ∧
    (preds [10, 20, 30, 40, 50, 60, 70, 80, 90, 100, 110, 120, 130, 140,
        150, 160, 170, 180, 190, 200, 210, 220, 230, 240] 3).getD 0 none =
      some 20 ∧
    (preds [10, 20, 30, 40, 50, 60, 70, 80, 90, 100, 110, 120, 130, 140,
        150, 160, 170, 180, 190, 200, 210, 220, 230, 240] 3).getD 23 none =
      none := by
  have h := C3_forecaster [10, 20, 30, 40, 50, 60, 70, 80, 90, 100, 110, 120,
      130, 140, 150, 160, 170, 180, 190, 200, 210, 220, 230, 240] 3
    (by rfl) (by norm_num) (by norm_num)
  refine ⟨h.1, h.2.1, ?_, h.2.2.2.1 23 (by norm_num)⟩
  rw [(h.2.2.1 0 (by norm_num)).2]
  norm_num

theorem alertTryBody_true :
    alertTryBody true =
      Except.error ("NameError: name MIMEText is not defined") := rfl

theorem alertTryBody_false : alertTryBody false = Except.ok false := rfl

theorem alertBlock_eq (wind : List ℚ) (armed confirm : Bool) :
    alertBlock wind armed confirm =
      if armed && decide ((30 : ℚ) < pyMax wind) then
        (if confirm then
          AlertOutcome.failed ("NameError: name MIMEText is not defined")
        else AlertOutcome.notConfirmed)
      else AlertOutcome.notArmedOrCalm := by
  cases hb : armed && decide ((30 : ℚ) < pyMax wind) <;> cases confirm <;>
    simp [alertBlock, hb, alertTryBody_true, alertTryBody_false]

/-- C4: the alert fires exactly when the arm checkbox is set and the raw
maximum wind sample strictly exceeds the fixed threshold 30; unarmed runs
never enter the alert path, and a maximum exactly equal to 30 does not
either. -/
theorem C4_alertDecision (wind : List ℚ) (armed confirm : Bool) :
    (alertBlock wind armed confirm ≠ AlertOutcome.notArmedOrCalm ↔
      armed = true ∧ (30 : ℚ) < pyMax wind) ∧
    (armed = false →
      alertBlock wind armed confirm = AlertOutcome.notArmedOrCalm) ∧
    (pyMax wind = 30 →
      alertBlock wind armed confirm = AlertOutcome.notArmedOrCalm) := by
  rw [alertBlock_eq]
  refine ⟨?_, ?_, ?_⟩
  · cases armed with
    | false => simp
    | true =>
      by_cases h : (30 : ℚ) < pyMax wind
      · have hd : decide ((30 : ℚ) < pyMax wind) = true := decide_eq_true h
        rw [hd]
        cases confirm <;> simp [h]
      · simp [h]
  · intro ha
    subst ha
    simp
  · intro h30
    have hnot : ¬((30 : ℚ) < pyMax wind) := by
      rw [h30]
      exact lt_irrefl 30
    simp [hnot]

/-- Witness for C4: the alert path is taken for the series with maximum 35
when armed, is skipped when unarmed, and is skipped at maximum exactly 30
even when armed. -/
theorem C4_alertDecision_witness :
    (alertBlock [35] true false ≠ AlertOutcome.notArmedOrCalm) ∧
    (alertBlock [35] false false = AlertOutcome.notArmedOrCalm) ∧
    (alertBlock [30, 20] true true = AlertOutcome.notArmedOrCalm) :=
  ⟨(C4_alertDecision [35] true false).1.mpr ⟨rfl, by norm_num [pyMax]⟩,
   (C4_alertDecision [35] false false).2.1 rfl,
   (C4_alertDecision [30, 20] true true).2.2 (by norm_num [pyMax])⟩

/-- C6: on a constant WindSeries the division by zero in the normalization
happens inside the `try` block of lines 30-39, so the script follows the
`except` path: it surfaces an explicit error message and stops, rather than
propagating an unhandled numeric fault. -/
theorem C6_constant_series_explicit_error (samples : List ℚ) (threshold : ℚ)
    (window : ℕ) (alpha : ℚ) (armed confirm : Bool) (c : ℚ)
    (hne : samples ≠ []) (hconst : ∀ w ∈ samples, w = c) :
    fullCycle samples threshold window alpha armed confirm =
      Except.error ("ZeroDivisionError: float division by zero") := by
  have hwind : samples.take 24 ≠ [] := by
    intro h
    rcases List.take_eq_nil_iff.mp h with h24 | hnil
    · exact absurd h24 (by norm_num)
    · exact hne hnil
  have hmm : pyMax (samples.take 24) = pyMin (samples.take 24) := by
    have h1 : pyMax (samples.take 24) = c :=
      hconst _ (List.mem_of_mem_take (pyMax_mem _ hwind))
    have h2 : pyMin (samples.take 24) = c :=
      hconst _ (List.mem_of_mem_take (pyMin_mem _ hwind))
    rw [h1, h2]
  have ht : tryBlock samples threshold =
      Except.error ("ZeroDivisionError: float division by zero") := by
    simp [tryBlock, hwind, hmm]
  simp [fullCycle, ht]

/-- Witness for C6 at the WindSeries of 24 samples all equal to 15. -/
theorem C6_constant_series_witness :
    fullCycle (List.replicate 24 (15 : ℚ)) (3 / 10) 3 100 true true =
      Except.error ("ZeroDivisionError: float division by zero") :=
  C6_constant_series_explicit_error (List.replicate 24 (15 : ℚ)) (3 / 10) 3
    100 true true 15 (by simp)
    (fun w hw => List.eq_of_mem_replicate hw)

/-- C7: the alert path is isolated from the rest of the pipeline: every
non-alert component of the interaction cycle is identical whatever the
arm/confirm state, the cycle succeeds or aborts independently of the alert
(it aborts only where the data `try` block does), and the alert outcome is
delivered as the caught value of the alert block rather than as an
uncaught exception. -/
theorem C7_alert_isolated (samples : List ℚ) (threshold : ℚ) (window : ℕ)
    (alpha : ℚ) (armed confirm armed2 confirm2 : Bool) :
    ((fullCycle samples threshold window alpha armed confirm).toOption.map
        (fun m => (m.wind, m.windNormS, m.spikeTrain, m.outTrace,
          m.forecast, m.nextHour)) =
      (fullCycle samples threshold window alpha armed2 confirm2).toOption.map
        (fun m => (m.wind, m.windNormS, m.spikeTrain, m.outTrace,
          m.forecast, m.nextHour))) ∧
    ((fullCycle samples threshold window alpha armed confirm).isOk =
      (tryBlock samples threshold).isOk) ∧
    ((fullCycle samples threshold window alpha armed confirm).toOption.map
        (fun m => m.alert) =
      (fullCycle samples threshold window alpha armed confirm).toOption.map
        (fun m => alertBlock m.wind armed confirm)) := by
  cases ht : tryBlock samples threshold with
  | error e =>
    simp [fullCycle, ht, Except.toOption, Except.isOk, Except.toBool]
  | ok v =>
    obtain ⟨w, n, s⟩ := v
    simp [fullCycle, ht, Except.toOption, Except.isOk, Except.toBool]

/-- C8: the Neuron Simulator is deterministic: two runs on equal spike
trains with equal alpha parameters, both from the all-zero initial state in
index order, produce equal output traces. -/
theorem C8_neuron_deterministic (s1 s2 : List ℕ) (a1 a2 : ℚ)
    (hs : s1 = s2) (ha : a1 = a2) : outputs s1 a1 = outputs s2 a2 := by
  rw [hs, ha]

/-- Witness for C8: two runs on the spike train 1,0,1,1 with alpha 100. -/
theorem C8_neuron_deterministic_witness :
    outputs [1, 0, 1, 1] 100 = outputs [1, 0, 1, 1] 100 :=
  C8_neuron_deterministic [1, 0, 1, 1] [1, 0, 1, 1] 100 100 rfl rfl

/-- C10: the success branch of the e-mail alert is unreachable: the module
never defines `MIMEText` or `smtplib`, so every confirmed attempt raises
`NameError` inside the `try` and ends in the reported-failure branch; no
input ever reaches the sent state. -/
theorem C10_alert_never_sent (wind : List ℚ) (armed confirm : Bool) :
    (alertBlock wind armed confirm ≠ AlertOutcome.sent) ∧
    (armed = true → (30 : ℚ) < pyMax wind → confirm = true →
      alertBlock wind armed confirm =
        AlertOutcome.failed ("NameError: name MIMEText is not defined")) := by
  rw [alertBlock_eq]
  constructor
  · cases armed <;> cases confirm <;>
      by_cases h : (30 : ℚ) < pyMax wind <;> simp [h]
  · intro ha hm hc
    subst ha
    subst hc
    simp [hm]

/-- Witness for C10: a confirmed attempt at the series with maximum 31
ends in the reported NameError failure. -/
theorem C10_alert_never_sent_witness :
    alertBlock [31] true true =
      AlertOutcome.failed ("NameError: name MIMEText is not defined") :=
  (C10_alert_never_sent [31] true true).2 rfl (by norm_num [pyMax]) rfl

/-- C5: the script performs no length check on the fetched series: a
Forecast Source answer of only 10 samples flows through the whole pipeline
(the `try` block succeeds, normalization, spikes and the rest are computed
on the 10-sample series) instead of being detected and aborted as an
error.  This contradicts the specified InsufficientDataError policy, so
the claim stands and the code is at fault. -/
theorem C5_short_series_not_detected :
    (fullCycle [1, 2, 3, 4, 5, 6, 7, 8, 9, 10] (3 / 10) 3 100 false
        false).isOk = true ∧
    (fullCycle [1, 2, 3, 4, 5, 6, 7, 8, 9, 10] (3 / 10) 3 100 false
        false).toOption.map
        (fun m => (m.wind.length, m.spikeTrain.length, m.forecast.length)) =
      some (10, 10, 24) := by
  have ht : tryBlock [1, 2, 3, 4, 5, 6, 7, 8, 9, 10] (3 / 10) =
      Except.ok ([1, 2, 3, 4, 5, 6, 7, 8, 9, 10],
        windNorm [1, 2, 3, 4, 5, 6, 7, 8, 9, 10],
        spikes (windNorm [1, 2, 3, 4, 5, 6, 7, 8, 9, 10]) (3 / 10)) := by
    simp [tryBlock]
    norm_num [pyMax, pyMin]
  constructor
  · simp [fullCycle, ht, Except.isOk, Except.toBool]
  · simp only [fullCycle, ht, Except.toOption, Option.map]
    have h1 : ([1, 2, 3, 4, 5, 6, 7, 8, 9, 10] : List ℚ).length = 10 := rfl
    have h2 : (spikes (windNorm [1, 2, 3, 4, 5, 6, 7, 8, 9, 10])
        (3 / 10)).length = 10 := by
      simp [spikes_length, windNorm_length]
    have h3 : (preds ([1, 2, 3, 4, 5, 6, 7, 8, 9, 10] : List ℚ) 3).length =
        24 := by
      simp [preds]
    rw [h1, h2, h3]

theorem preds_one_getD (wind : List ℚ) (h24 : wind.length = 24) (i : ℕ)
    (hi : i < 24) : (preds wind 1).getD i none = some (wind.getD i 0) := by
  rw [preds_getD_valid wind 1 h24 (by norm_num) (by norm_num) i (by omega)]
  have hlt : i < wind.length := by omega
  have hsum : (List.take 1 (List.drop i wind)).sum = wind.getD i 0 := by
    rw [List.take_one, List.head?_drop, List.getElem?_eq_getElem hlt]
    simp [List.getD_eq_getElem?_getD, List.getElem?_eq_getElem hlt]
  rw [hsum]
  norm_num

/-- C9: the summary value of line 77 is the last Forecast entry (index 23
of the padded 24-entry list); for every window of at least 2 that entry is
the placeholder, so the summary renders the unavailability warning, and for
window 1 it is the mean of the one-sample window, i.e. the last raw
sample. -/
theorem C9_next_hour_from_last_entry (wind : List ℚ) (T : ℚ) (window : ℕ)
    (h24 : wind.length = 24) (h1 : 1 ≤ window) (h5 : window ≤ 5) :
    (nextHourVal (preds wind window) (spikes (windNorm wind) T) =
        (preds wind window).getD 23 none) ∧
    (2 ≤ window →
      nextHourVal (preds wind window) (spikes (windNorm wind) T) = none) ∧
    (window = 1 →
      nextHourVal (preds wind window) (spikes (windNorm wind) T) =
        some (wind.getD 23 0)) := by
  have hsl : (spikes (windNorm wind) T).length = 24 := by
    rw [spikes_length, windNorm_length, h24]
  have hpl : (preds wind window).length = 24 :=
    preds_length wind window h24 h1 h5
  have hfirst : nextHourVal (preds wind window) (spikes (windNorm wind) T) =
      (preds wind window).getD 23 none := by
    have hcond : (preds wind window) ≠ [] ∧
        (spikes (windNorm wind) T).length ≤ (preds wind window).length := by
      constructor
      · intro h
        rw [h] at hpl
        exact absurd hpl (by norm_num)
      · rw [hsl, hpl]
    rw [nextHourVal, if_pos hcond, hsl]
  refine ⟨hfirst, ?_, ?_⟩
  · intro h2
    rw [hfirst]
    exact preds_getD_invalid wind window h24 h1 h5 23 (by omega)
  · intro hw
    subst hw
    rw [hfirst]
    exact preds_one_getD wind h24 23 (by norm_num)

/-- Witness for C9 at the WindSeries 10, 20, ..., 240: window 3 leaves the
next-hour value unavailable, window 1 displays the last raw sample 240. -/
theorem C9_next_hour_witness :
    nextHourVal
        (preds [10, 20, 30, 40, 50, 60, 70, 80, 90, 100, 110, 120, 130, 140,
          150, 160, 170, 180, 190, 200, 210, 220, 230, 240] 3)
        (spikes (windNorm [10, 20, 30, 40, 50, 60, 70, 80, 90, 100, 110, 120,
          130, 140, 150, 160, 170, 180, 190, 200, 210, 220, 230, 240])
          (3 / 10)) = none ∧
    nextHourVal
        (preds [10, 20, 30, 40, 50, 60, 70, 80, 90, 100, 110, 120, 130, 140,
          150, 160, 170, 180, 190, 200, 210, 220, 230, 240] 1)
        (spikes (windNorm [10, 20, 30, 40, 50, 60, 70, 80, 90, 100, 110, 120,
          130, 140, 150, 160, 170, 180, 190, 200, 210, 220, 230, 240])
          (3 / 10)) = some 240 := by
  constructor
  · exact (C9_next_hour_from_last_entry [10, 20, 30, 40, 50, 60, 70, 80, 90,
      100, 110, 120, 130, 140, 150, 160, 170, 180, 190, 200, 210, 220, 230,
      240] (3 / 10) 3 (by rfl) (by norm_num) (by norm_num)).2.1 (by norm_num)
  · have h := (C9_next_hour_from_last_entry [10, 20, 30, 40, 50, 60, 70, 80,
      90, 100, 110, 120, 130, 140, 150, 160, 170, 180, 190, 200, 210, 220,
      230, 240] (3 / 10) 1 (by rfl) (by norm_num) (by norm_num)).2.2 rfl
    rw [h]
    rfl

end NeuroMeteo
